import Mathlib

/-!
Shallow embedding of the career-matching serverless functions.

Each namespace below models one source variant of the repository:

* `Part000` — the `executeCareerMatching` pipeline with the attribute
  whitelist (`filterValidAttributes`) and the fire-and-forget talent update.
* `Part002` — `generateAICareerMatches` (no clamping, no result bound).
* `Part003` — the handler with `validRecommendations` filtering,
  `preFilterCareerPaths` (fields/skills cold check) and
  `generateFastFallbackMatches` (exact-equality scorer with random jitter).
* `Part004A` — the first variant of `part_004`: `generateOptimizedAIMatches`
  with score clamping, fallback supplementation and the top-6 bound, plus
  `preFilterCareerPaths` (fields/skills/interests cold check) and
  `generateEnhancedFallbackMatches`.
* `Part004C` — the final variant of `part_004`: `generateOptimizedAIMatches`
  that rethrows every AI failure.
* `Part006` — the handler that awaits the `testTaken` status write.
* `MainJs` — `src/main.js` first variant: oracle race with timeout and the
  built-in parse-failure default recommendations.

External effects (the Gemini call, `JSON.parse`, the database writes) are
modelled as explicit inputs: an oracle outcome value, a parse outcome value,
and a write outcome value.  `Math.random()` is modelled as an explicit
stream `ℕ → ℚ` of jitter values (the value consumed by the i-th array
element).  JS stable `Array.prototype.sort` with comparator
`(a, b) => b.matchScore - a.matchScore` is modelled by a stable insertion
sort on the relation `b.matchScore ≤ a.matchScore`.
-/

namespace CareerMatch

/-- Boolean test that `needle` occurs as a contiguous run inside the second
list (successively tries every suffix). -/
def containsSeq (needle : List Char) : List Char → Bool
  | [] => needle.isEmpty
  | c :: cs => needle.isPrefixOf (c :: cs) || containsSeq needle cs

/-- JS `a.includes(b)` on strings: `b` occurs as a contiguous substring of `a`. -/
def jsIncludes (a b : String) : Bool :=
  containsSeq b.toList a.toList

/-- The bidirectional case-insensitive containment test used throughout the
source: `x.toLowerCase().includes(y.toLowerCase()) ||
y.toLowerCase().includes(x.toLowerCase())`. -/
def biContains (x y : String) : Bool :=
  jsIncludes x.toLower y.toLower || jsIncludes y.toLower x.toLower

/-- One catalog item (an Appwrite `careerPaths` document), restricted to the
fields the modelled functions read.  `level` is the raw string field; the
empty string models an absent (falsy) value. -/
structure CareerPath where
  id : String
  title : String
  industry : String
  requiredSkills : List String
  requiredInterests : List String
  level : String
  deriving DecidableEq

/-- The survey-response fields read by the pre-filters and fallback scorers.
All array fields default to `[]`, matching the `|| []` defaulting in the
source. -/
structure SurveyResponses where
  currentSkills : List String
  skillsToLearn : List String
  interests : List String
  interestedFields : List String
  deriving DecidableEq

/-- One enriched match candidate as produced by the generators and fallback
scorers (`careerPath` + `matchScore` + text fields). -/
structure MatchCand where
  careerPath : CareerPath
  matchScore : ℤ
  reasoning : String
  strengths : List String
  developmentAreas : List String
  recommendations : List String
  deriving DecidableEq

/-- JS stable sort with comparator `(a, b) => b.matchScore - a.matchScore`:
stable descending order on `matchScore`. -/
def sortByScoreDesc (l : List MatchCand) : List MatchCand :=
  l.insertionSort (fun a b => b.matchScore ≤ a.matchScore)

/-- The jitter stream that models a `Math.random()` sequence returning 0
at every call. -/
def zeroJitter : ℕ → ℚ := fun _ => 0

/-! ### JS values, truthiness and the talent-attribute whitelist -/

/-- A primitive (non-array) JS value as handled by `filterValidAttributes`:
a string, a number, a boolean, `null` or `undefined`. -/
inductive JSPrim where
  | str (s : String)
  | num (n : ℤ)
  | boolean (b : Bool)
  | null
  | undefined
  deriving DecidableEq

/-- A JS value as handled by `filterValidAttributes`: a primitive or an
array of primitives (survey answers are scalars or arrays of scalars). -/
inductive JSValue where
  | prim (p : JSPrim)
  | arr (elems : List JSPrim)
  deriving DecidableEq

/-- JS truthiness of a value (arrays are objects, hence always truthy). -/
def JSValue.truthy : JSValue → Bool
  | .prim (.str s) => !(s == "")
  | .prim (.num n) => !(n == 0)
  | .prim (.boolean b) => b
  | .prim .null => false
  | .prim .undefined => false
  | .arr _ => true

/-- `Array.isArray`. -/
def JSValue.isArr : JSValue → Bool
  | .arr _ => true
  | .prim _ => false

/-- The fixed whitelist of attributes that exist on the `talents`
collection (`VALID_TALENT_ATTRIBUTES` in the source). -/
def VALID_TALENT_ATTRIBUTES : List String :=
  ["fullname", "email", "avatar", "careerStage", "dateofBirth", "talentId",
   "selectedPath", "degrees", "certifications", "skills", "interests",
   "currentPath", "testTaken", "interestedFields", "savedPaths",
   "currentSeniorityLevel", "savedJobs"]

/-- The whitelisted attributes that are array-typed (`ARRAY_ATTRIBUTES`). -/
def ARRAY_ATTRIBUTES : List String :=
  ["degrees", "certifications", "skills", "interests",
   "interestedFields", "savedPaths", "savedJobs"]

/-- `Array.isArray(value) ? value : (value ? [value] : [])` — the coercion
applied to array-typed attributes. -/
def coerceArrayAttribute : JSValue → JSValue
  | .arr elems => .arr elems
  | .prim p => if JSValue.truthy (.prim p) then .arr [p] else .arr []

namespace Part000

/-- `filterValidAttributes` from the `executeCareerMatching` variants: keep
only whitelisted keys and force array-typed attributes to arrays.  A survey
response object is modelled as an association list of its entries, in
enumeration order. -/
def filterValidAttributes (surveyResponses : List (String × JSValue)) :
    List (String × JSValue) :=
  surveyResponses.filterMap fun kv =>
    if VALID_TALENT_ATTRIBUTES.contains kv.1 then
      if ARRAY_ATTRIBUTES.contains kv.1 then
        some (kv.1, coerceArrayAttribute kv.2)
      else
        some kv
    else
      none

end Part000

/-! ### Catalog pre-filters -/

namespace Part004A

/-- `preFilterCareerPaths` from the first `part_004` variant: cold profiles
(no fields, no skills, no interests) short-circuit to the first 25 catalog
items; otherwise items are kept when the weighted overlap score
`3·fieldMatch + skillMatches + 0.5·interestMatches` is positive, the result
is padded back to 12 items from the unselected remainder, and capped at 25. -/
def preFilterCareerPaths (sr : SurveyResponses) (careerPaths : List CareerPath) :
    List CareerPath :=
  if sr.interestedFields.isEmpty && sr.currentSkills.isEmpty && sr.interests.isEmpty then
    careerPaths.take 25
  else
    let filtered := careerPaths.filter fun path =>
      let fieldScore : ℚ := if sr.interestedFields.contains path.industry then 3 else 0
      let skillMatches := (sr.currentSkills.filter fun skill =>
        path.requiredSkills.any fun pathSkill => biContains pathSkill skill).length
      let interestMatches := (sr.interests.filter fun interest =>
        path.requiredInterests.any fun pathInterest => biContains pathInterest interest).length
      decide (0 < fieldScore + skillMatches + (interestMatches : ℚ) * (1 / 2))
    let padded :=
      if filtered.length < 12 then
        filtered ++ (careerPaths.filter fun path => !filtered.contains path).take
          (12 - filtered.length)
      else filtered
    padded.take 25

end Part004A

namespace Part003

/-- `preFilterCareerPaths` from the `part_003` `executeCareerMatching`
variant: when both interestedFields and currentSkills are empty, return the
first 20 items; otherwise keep items with a field match or a skill overlap,
capped at 25, falling back to the first 15 items when nothing matches. -/
def preFilterCareerPaths (sr : SurveyResponses) (careerPaths : List CareerPath) :
    List CareerPath :=
  if sr.interestedFields.isEmpty && sr.currentSkills.isEmpty then
    careerPaths.take 20
  else
    let filtered := careerPaths.filter fun path =>
      let fieldMatch := sr.interestedFields.isEmpty ||
        sr.interestedFields.contains path.industry
      let skillOverlap := sr.currentSkills.any fun skill =>
        path.requiredSkills.any fun pathSkill => biContains pathSkill skill
      fieldMatch || skillOverlap
    if 0 < filtered.length then filtered.take 25 else careerPaths.take 15

end Part003


/-! ### The `main.js` handler (first variant) -/

namespace MainJs

/-- One AI recommendation record in the `main.js` prompt schema. -/
structure Recommendation where
  pathId : String
  title : String
  matchScore : ℤ
  reason : String
  improvementAreas : List String
  deriving DecidableEq

/-- A parsed AI payload: the `recommendations` array plus the optional
`generalAdvice` string. -/
structure JsonPayload where
  recommendations : List Recommendation
  generalAdvice : Option String
  deriving DecidableEq

/-- Outcome of `JSON.parse` on the cleaned oracle text: parse failure,
a parsed value whose `recommendations` field is not an array, or a
schema-conforming payload. -/
inductive ParseOutcome where
  | unparsable
  | invalidStructure
  | parsed (payload : JsonPayload)
  deriving DecidableEq

/-- Outcome of `Promise.race([aiPromise, timeoutPromise])`: the 25s timer
fires first, the API call rejects, or the API call resolves with text. -/
inductive OracleOutcome where
  | timeout
  | transportError (msg : String)
  | text (s : String)
  deriving DecidableEq

/-- The JSON envelope returned by the `main.js` function.  The error path
returns only `success` and `error`; the missing keys are modelled by the
neutral defaults `[]` and `""`. -/
structure Response where
  success : Bool
  error : Option String
  recommendations : List Recommendation
  generalAdvice : String
  careerStage : String
  deriving DecidableEq

/-- The `topPaths.map((path, index) => ...)` default built in the parse
catch block, with the running array index threaded explicitly. -/
def fallbackRecommendationsFrom (stage : String) (i : ℕ) :
    List CareerPath → List Recommendation
  | [] => []
  | p :: ps =>
      { pathId := p.id, title := p.title, matchScore := 85 - 5 * (i : ℤ),
        reason := "Good match based on your " ++ stage ++ " profile",
        improvementAreas := ["Communication", "Technical Skills"] } ::
      fallbackRecommendationsFrom stage (i + 1) ps

/-- The built-in default recommendations created when JSON parsing fails:
`careerPaths.documents.slice(0, 3)` mapped to scores `85 - 5*index`. -/
def fallbackRecommendations (stage : String) (careerPaths : List CareerPath) :
    List Recommendation :=
  fallbackRecommendationsFrom stage 0 (careerPaths.take 3)

/-- The `main.js` request tail from the oracle race onward.  A timeout or a
rejected API call propagates to the outer catch and produces the
`success:false` envelope; unparsable text is replaced by the built-in
default recommendations; a parsed payload without a `recommendations` array
throws `Invalid AI response structure`. -/
def handle (oracle : OracleOutcome) (parse : String → ParseOutcome)
    (stage : String) (careerPaths : List CareerPath) : Response :=
  match oracle with
  | .timeout =>
      { success := false, error := some "AI request timeout",
        recommendations := [], generalAdvice := "", careerStage := "" }
  | .transportError msg =>
      { success := false, error := some msg,
        recommendations := [], generalAdvice := "", careerStage := "" }
  | .text s =>
      let step : Except String JsonPayload :=
        match parse s with
        | .unparsable =>
            .ok { recommendations := fallbackRecommendations stage careerPaths,
                  generalAdvice :=
                    some "Focus on developing skills that align with your interests and career goals." }
        | .invalidStructure => .error "Invalid AI response structure"
        | .parsed payload => .ok payload
      match step with
      | .error msg =>
          { success := false, error := some msg,
            recommendations := [], generalAdvice := "", careerStage := "" }
      | .ok payload =>
          { success := true, error := none,
            recommendations := payload.recommendations.take 3,
            generalAdvice := payload.generalAdvice.getD
              "Continue developing your skills and exploring opportunities.",
            careerStage := stage }

end MainJs

/-! ### The final `part_004` variant (rethrowing generator) -/

namespace Part004C

/-- One AI match as parsed in the final `part_004` variant; every field of
the untyped object other than the id may be absent. -/
structure OracleMatch where
  careerPathId : String
  matchScore : Option ℤ
  reasoning : Option String
  deriving DecidableEq

/-- Outcome of the `generateContent` call followed by the JSON extraction:
a rejected API call, text without a JSON object, a JSON object without a
`matches` array, or a parsed `matches` array. -/
inductive AIOutcome where
  | apiError (msg : String)
  | noJson
  | badStructure
  | parsed (ms : List OracleMatch)
  deriving DecidableEq

/-- A match enriched with the catalog document found by id; the AI fields
flow through untouched in this variant. -/
structure Enriched where
  careerPathId : String
  matchScore : Option ℤ
  careerPath : CareerPath
  deriving DecidableEq

/-- `generateOptimizedAIMatches` from the final `part_004` variant: on the
happy path enrich and drop hallucinated ids; every failure is rethrown as
`Failed to generate AI career matches: ...` (no fallback). -/
def generateOptimizedAIMatches (outcome : AIOutcome) (careerPaths : List CareerPath) :
    Except String (List Enriched) :=
  match outcome with
  | .apiError msg =>
      .error ("Failed to generate AI career matches: " ++ msg)
  | .noJson =>
      .error "Failed to generate AI career matches: AI response did not contain valid JSON"
  | .badStructure =>
      .error "Failed to generate AI career matches: AI response contains invalid matches structure"
  | .parsed ms =>
      .ok (ms.filterMap fun m =>
        (careerPaths.find? fun path => path.id == m.careerPathId).map fun cp =>
          { careerPathId := m.careerPathId, matchScore := m.matchScore, careerPath := cp })

/-- The handler envelope around `generateOptimizedAIMatches`: a thrown
error becomes the `success:false` JSON with the error message. -/
structure HandlerResponse where
  success : Bool
  error : Option String
  matchList : List Enriched
  deriving DecidableEq

/-- The handler tail of the final `part_004` variant (the `matches` key of
the JSON response is called `matchList` here because `matches` is reserved). -/
def handler (outcome : AIOutcome) (careerPaths : List CareerPath) : HandlerResponse :=
  match generateOptimizedAIMatches outcome careerPaths with
  | .error msg => { success := false, error := some msg, matchList := [] }
  | .ok ms => { success := true, error := none, matchList := ms }

end Part004C

/-! ### The `part_006` handler tail and the `part_000` pipeline pieces -/

namespace Part006

/-- The response envelope of the `part_006` handler. -/
structure Response where
  success : Bool
  error : Option String
  recommendations : List MainJs.Recommendation
  generalAdvice : String
  careerStage : String
  deriving DecidableEq

/-- The `part_006` handler tail: after parsing, fewer than 3 recommendations
throw; then the `testTaken` update is awaited, so a rejected update
propagates to the catch-all and becomes the error envelope; only afterwards
is the success response assembled. -/
def handlerTail (payload : MainJs.JsonPayload) (stage : String)
    (updateResult : Except String Unit) : Response :=
  if payload.recommendations.length < 3 then
    { success := false, error := some "AI did not provide enough recommendations",
      recommendations := [], generalAdvice := "", careerStage := "" }
  else
    match updateResult with
    | .error msg =>
        { success := false, error := some msg,
          recommendations := [], generalAdvice := "", careerStage := "" }
    | .ok _ =>
        { success := true, error := none,
          recommendations := payload.recommendations.take 3,
          generalAdvice := payload.generalAdvice.getD
            "Continue developing your skills and exploring opportunities in your areas of interest.",
          careerStage := stage }

end Part006

namespace Part000

/-- The response shape of the `part_000` `module.exports` handler: the parsed
oracle payload is returned verbatim. -/
structure Response where
  success : Bool
  recommendations : List MainJs.Recommendation
  generalAdvice : Option String
  careerStage : String
  deriving DecidableEq

/-- The `part_000` `module.exports` handler tail: the parsed recommendations
are sent to the caller with no validation against the catalog. -/
def respond (payload : MainJs.JsonPayload) (stage : String) : Response :=
  { success := true, recommendations := payload.recommendations,
    generalAdvice := payload.generalAdvice, careerStage := stage }

/-- The result object built by `executeCareerMatching`. -/
structure ExecResult where
  success : Bool
  matchList : List MatchCand
  totalPaths : ℕ
  matchedPaths : ℕ
  deriving DecidableEq

/-- The `executeCareerMatching` write-back step and result: the talent
update is fired without `await`; a rejected update only appends a warning
line to the log (second component) and the returned result object is built
independently of it. -/
def executeCareerMatching (updateResult : Except String Unit)
    (ms : List MatchCand) (totalPaths : ℕ) : ExecResult × List String :=
  let updateLog :=
    match updateResult with
    | .error msg => ["Warning: Failed to update talent: " ++ msg]
    | .ok _ => []
  ({ success := true, matchList := ms, totalPaths := totalPaths,
     matchedPaths := ms.length }, updateLog)

end Part000

/-! ### The `part_003` reconciliation -/

namespace Part003

/-- `validRecommendations`: keep only recommendations whose `pathId` occurs
in the filtered catalog. -/
def validRecommendations (recs : List MainJs.Recommendation)
    (relevantPaths : List CareerPath) : List MainJs.Recommendation :=
  recs.filter fun r => relevantPaths.any fun path => path.id == r.pathId

/-- The response envelope of the `part_003` handler. -/
structure Response where
  success : Bool
  error : Option String
  recommendations : List MainJs.Recommendation
  generalAdvice : String
  careerStage : String
  deriving DecidableEq

/-- The `part_003` handler tail after AI parsing: drop recommendations with
hallucinated ids, throw when none remain, otherwise answer with the first
five valid recommendations. -/
def respond (recs : List MainJs.Recommendation) (relevantPaths : List CareerPath)
    (generalAdvice : Option String) (stage : String) : Response :=
  let valid := validRecommendations recs relevantPaths
  if valid.length = 0 then
    { success := false, error := some "No valid recommendations from AI",
      recommendations := [], generalAdvice := "", careerStage := "" }
  else
    { success := true, error := none, recommendations := valid.take 5,
      generalAdvice := generalAdvice.getD
        "Continue developing your skills and exploring opportunities in your areas of interest.",
      careerStage := stage }

end Part003

/-! ### The `part_002` generator -/

namespace Part002

/-- One AI match object as prompted in `part_002`.  The score is passed
through untouched by this variant, so a numeric score is modelled as a plain
integer. -/
structure AIMatch where
  careerPathId : String
  matchScore : ℤ
  reasoning : String
  strengths : List String
  developmentAreas : List String
  recommendations : List String
  deriving DecidableEq

/-- `generateAICareerMatches` happy path from `part_002`: enrich each AI
match with the catalog document found by id, drop matches whose id is not in
the catalog, sort by score descending, and return the whole list — no
clamping, no size bound, no fallback fill. -/
def generateAICareerMatches (ms : List AIMatch) (careerPaths : List CareerPath) :
    List MatchCand :=
  sortByScoreDesc (ms.filterMap fun m =>
    (careerPaths.find? fun path => path.id == m.careerPathId).map fun careerPath =>
      { careerPath := careerPath, matchScore := m.matchScore, reasoning := m.reasoning,
        strengths := m.strengths, developmentAreas := m.developmentAreas,
        recommendations := m.recommendations })

end Part002

/-! ### The first `part_004` variant: clamping reconciliation -/

namespace Part004A

/-- One AI match as parsed in the first `part_004` variant: every field
other than the id may be missing or of the wrong shape. -/
structure OracleMatch where
  careerPathId : String
  matchScore : Option ℤ
  reasoning : Option String
  strengths : Option (List String)
  developmentAreas : Option (List String)
  recommendations : Option (List String)
  deriving DecidableEq

/-- JS `x || 50` on the score: a missing or non-numeric score (`none`) and
the falsy score `0` both fall back to 50. -/
def scoreOrFifty : Option ℤ → ℤ
  | none => 50
  | some v => if v = 0 then 50 else v

/-- `Math.min(Math.max(match.matchScore || 50, 0), 100)` from the first
`part_004` variant. -/
def clampScore (s : Option ℤ) : ℤ :=
  min (max (scoreOrFifty s) 0) 100

/-- JS `x || d` on an optional string: absent and empty both default. -/
def jsOrStr (v : Option String) (d : String) : String :=
  match v with
  | none => d
  | some s => if s = "" then d else s

/-- Enrich one AI match with the catalog document found by id (`none` when
the id is hallucinated), clamping the score and defaulting the text lists. -/
def enrichMatch (stage : String) (careerPaths : List CareerPath) (m : OracleMatch) :
    Option MatchCand :=
  (careerPaths.find? fun path => path.id == m.careerPathId).map fun careerPath =>
    { careerPath := careerPath
      matchScore := clampScore m.matchScore
      reasoning := jsOrStr m.reasoning ("Good fit for " ++ stage ++ " profile")
      strengths :=
        match m.strengths with
        | some l => l.take 3
        | none => ["Strong foundation for growth"]
      developmentAreas :=
        match m.developmentAreas with
        | some l => l.take 3
        | none => ["Industry knowledge", "Specialized skills"]
      recommendations :=
        match m.recommendations with
        | some l => l.take 4
        | none => ["Take relevant courses", "Build portfolio projects",
                   "Network with professionals"] }

/-- The reconciliation step of `generateOptimizedAIMatches` (first `part_004`
variant): enrich, drop hallucinated ids, sort by score descending. -/
def enrichedMatches (stage : String) (ms : List OracleMatch)
    (careerPaths : List CareerPath) : List MatchCand :=
  sortByScoreDesc (ms.filterMap (enrichMatch stage careerPaths))

end Part004A

/-! ### The enhanced fallback scorer and generator of the first `part_004` variant -/

namespace Part004A

/-- Count of required skills matched by the current skills via bidirectional
case-insensitive containment (the `skillMatches` filter-and-length of
`generateEnhancedFallbackMatches`, stated via `countP`). -/
def skillMatchCount (sr : SurveyResponses) (path : CareerPath) : ℕ :=
  path.requiredSkills.countP fun skill =>
    sr.currentSkills.any fun userSkill => biContains userSkill skill

/-- Count of required skills matched by the skills-to-learn list. -/
def learningMatchCount (sr : SurveyResponses) (path : CareerPath) : ℕ :=
  path.requiredSkills.countP fun skill =>
    sr.skillsToLearn.any fun learnSkill => biContains learnSkill skill

/-- Count of required interests matched by the interests list. -/
def interestMatchCount (sr : SurveyResponses) (path : CareerPath) : ℕ :=
  path.requiredInterests.countP fun interest =>
    sr.interests.any fun userInterest => biContains userInterest interest

/-- The career-stage/level policy table guarded by the JS truthiness check
`if (path.level && talent.careerStage)`. -/
def stageLevelFit (careerStage : String) (path : CareerPath) : Bool :=
  !(path.level == "") && !(careerStage == "") &&
    ((careerStage == "Pathfinder" && path.level == "Entry") ||
     (careerStage == "Trailblazer" && (path.level == "Entry" || path.level == "Mid")) ||
     (careerStage == "Horizon Changer" && (path.level == "Mid" || path.level == "Senior")))

/-- One scored entry of `generateEnhancedFallbackMatches` (first `part_004`
variant): the incremental score accumulation (25 per skill match, 15 per
skills-to-learn match, 20 per interest match, 30 for an interested-fields
industry hit, 10 for stage/level fit), the pushed reasoning fragments, the
jitter value `j` of this item (`Math.random() * 5`), and the final
`Math.min(Math.round(score), 90)`. -/
def enhancedScoreOne (sr : SurveyResponses) (careerStage : String)
    (path : CareerPath) (j : ℚ) : MatchCand :=
  let skillMatches := (path.requiredSkills.filter fun skill =>
    sr.currentSkills.any fun userSkill => biContains userSkill skill).length
  let learningMatches := (path.requiredSkills.filter fun skill =>
    sr.skillsToLearn.any fun learnSkill => biContains learnSkill skill).length
  let interestMatches := (path.requiredInterests.filter fun interest =>
    sr.interests.any fun userInterest => biContains userInterest interest).length
  let industryHit := sr.interestedFields.contains path.industry
  let levelHit := stageLevelFit careerStage path
  let base : ℕ :=
    skillMatches * 25 + learningMatches * 15 + interestMatches * 20 +
      (if industryHit then 30 else 0) + (if levelHit then 10 else 0)
  let reasons : List String :=
    (if 0 < skillMatches then
      [toString skillMatches ++ " skill match" ++
        (if 1 < skillMatches then "es" else "")] else []) ++
    (if 0 < learningMatches then
      ["eager to learn " ++ toString learningMatches ++ " skill" ++
        (if 1 < learningMatches then "s" else "")] else []) ++
    (if 0 < interestMatches then
      [toString interestMatches ++ " interest alignment" ++
        (if 1 < interestMatches then "s" else "")] else []) ++
    (if industryHit then ["strong interest in " ++ path.industry] else []) ++
    (if levelHit then ["fits " ++ careerStage ++ " level"] else [])
  { careerPath := path
    matchScore := min (round ((base : ℚ) + j)) 90
    reasoning :=
      if reasons.isEmpty then "Potential fit for " ++ careerStage
      else String.intercalate ", " reasons
    strengths := sr.currentSkills.take 2 ++ ["Growth mindset"]
    developmentAreas := ["Industry knowledge", "Specialized skills"]
    recommendations := ["Research the field", "Take relevant courses",
      "Network with professionals", "Build relevant projects"] }

/-- `careerPaths.map(...)` with one `Math.random()` call per item: the
`i`-th stream value feeds the `i`-th item. -/
def enhancedScoredPaths (sr : SurveyResponses) (careerStage : String)
    (jitter : ℕ → ℚ) (i : ℕ) : List CareerPath → List MatchCand
  | [] => []
  | p :: ps =>
      enhancedScoreOne sr careerStage p (jitter i) ::
        enhancedScoredPaths sr careerStage jitter (i + 1) ps

/-- `generateEnhancedFallbackMatches` (first `part_004` variant): score all
catalog items, sort by score descending (stable), return the top 6. -/
def generateEnhancedFallbackMatches (sr : SurveyResponses) (careerStage : String)
    (careerPaths : List CareerPath) (jitter : ℕ → ℚ) : List MatchCand :=
  (sortByScoreDesc (enhancedScoredPaths sr careerStage jitter 0 careerPaths)).take 6

/-- `generateOptimizedAIMatches` happy path (first `part_004` variant):
reconcile the AI matches; when fewer than 4 survive, append non-duplicate
(by catalog id) fallback matches until 4 are reached; finally return the
top 6. -/
def generateOptimizedAIMatches (stage : String) (sr : SurveyResponses)
    (ms : List OracleMatch) (careerPaths : List CareerPath) (jitter : ℕ → ℚ) :
    List MatchCand :=
  let enriched := enrichedMatches stage ms careerPaths
  let final :=
    if enriched.length < 4 then
      let fallback := generateEnhancedFallbackMatches sr stage careerPaths jitter
      let existingIds := enriched.map fun m => m.careerPath.id
      enriched ++
        (fallback.filter fun m => !(existingIds.contains m.careerPath.id)).take
          (4 - enriched.length)
    else enriched
  final.take 6

end Part004A

/-! ### The fast fallback scorer of `part_003` -/

namespace Part003

/-- One scored entry of `generateFastFallbackMatches` (`part_003`): exact
`includes` matching (20 per skill, 15 per interest, 30 for an industry hit),
the jitter value `j` of this item (`Math.random() * 10`), and
`Math.min(Math.round(score), 100)`. -/
def fastScoreOne (sr : SurveyResponses) (path : CareerPath) (j : ℚ) : MatchCand :=
  let skillMatches := (path.requiredSkills.filter fun skill =>
    sr.currentSkills.contains skill).length
  let interestMatches := (path.requiredInterests.filter fun interest =>
    sr.interests.contains interest).length
  let base : ℕ :=
    skillMatches * 20 + interestMatches * 15 +
      (if sr.interestedFields.contains path.industry then 30 else 0)
  { careerPath := path
    matchScore := min (round ((base : ℚ) + j)) 100
    reasoning := toString skillMatches ++ " skill matches and " ++
      toString interestMatches ++ " interest alignments"
    strengths := (sr.currentSkills.take 2).map fun s => "Strong in " ++ s
    developmentAreas := ["Industry knowledge", "Specialized skills"]
    recommendations := ["Take courses", "Build projects", "Network"] }

/-- `careerPaths.map(...)` with one `Math.random()` call per item. -/
def fastScoredPaths (sr : SurveyResponses) (jitter : ℕ → ℚ) (i : ℕ) :
    List CareerPath → List MatchCand
  | [] => []
  | p :: ps => fastScoreOne sr p (jitter i) :: fastScoredPaths sr jitter (i + 1) ps

/-- `generateFastFallbackMatches` (`part_003`): score all catalog items under
the jitter stream, sort by score descending (stable), return the top 3. -/
def generateFastFallbackMatches (sr : SurveyResponses) (careerPaths : List CareerPath)
    (jitter : ℕ → ℚ) : List MatchCand :=
  (sortByScoreDesc (fastScoredPaths sr jitter 0 careerPaths)).take 3

/-- The jitter-disabled fast fallback entry: identical to `fastScoreOne`
except that no random term is added to the score. -/
def fastScoreOneNoJitter (sr : SurveyResponses) (path : CareerPath) : MatchCand :=
  let skillMatches := (path.requiredSkills.filter fun skill =>
    sr.currentSkills.contains skill).length
  let interestMatches := (path.requiredInterests.filter fun interest =>
    sr.interests.contains interest).length
  let base : ℕ :=
    skillMatches * 20 + interestMatches * 15 +
      (if sr.interestedFields.contains path.industry then 30 else 0)
  { careerPath := path
    matchScore := min (base : ℤ) 100
    reasoning := toString skillMatches ++ " skill matches and " ++
      toString interestMatches ++ " interest alignments"
    strengths := (sr.currentSkills.take 2).map fun s => "Strong in " ++ s
    developmentAreas := ["Industry knowledge", "Specialized skills"]
    recommendations := ["Take courses", "Build projects", "Network"] }

/-- The jitter-disabled fast fallback ranking: a pure function of the
profile and the catalog. -/
def generateFastFallbackMatchesNoJitter (sr : SurveyResponses)
    (careerPaths : List CareerPath) : List MatchCand :=
  (sortByScoreDesc (careerPaths.map (fastScoreOneNoJitter sr))).take 3

end Part003

/-- Following the words of the spec (§4.3), for comparison with the source
scorers: `25*skillMatchCount + 20*interestMatchCount + 25*(industry in
interested fields) + 10*(stage-level fit)`, clamped to [0, 100], with
bidirectional substring containment counts. -/
def specFallbackScore (sr : SurveyResponses) (careerStage : String)
    (path : CareerPath) : ℤ :=
  min (max ((Part004A.skillMatchCount sr path : ℤ) * 25 +
    (Part004A.interestMatchCount sr path : ℤ) * 20 +
    (if sr.interestedFields.contains path.industry then 25 else 0) +
    (if Part004A.stageLevelFit careerStage path then 10 else 0)) 0) 100

/-! ## Theorems -/

/-! ### Claim C7 — cold-profile pre-filter -/

/-- C7: for every catalog, a profile with no skills, no interests and no
interested fields makes both cited pre-filters skip scoring and return the
first `maxSize` catalog items verbatim in original order (25 in the
`part_004` variant, 20 in the `part_003` variant). -/
theorem C7_cold_profile (sr : SurveyResponses) (careerPaths : List CareerPath)
    (hskills : sr.currentSkills = []) (hinterests : sr.interests = [])
    (hfields : sr.interestedFields = []) :
    Part004A.preFilterCareerPaths sr careerPaths = careerPaths.take 25 ∧
    Part003.preFilterCareerPaths sr careerPaths = careerPaths.take 20 := by
  constructor
  · simp [Part004A.preFilterCareerPaths, hskills, hinterests, hfields]
  · simp [Part003.preFilterCareerPaths, hskills, hfields]

/-- Witness for C7 at a concrete cold profile and a three-item catalog. -/
theorem C7_cold_profile_witness :
    Part004A.preFilterCareerPaths ⟨[], [], [], []⟩
        [⟨"a", "A", "T", [], [], ""⟩, ⟨"b", "B", "H", [], [], ""⟩] =
      [⟨"a", "A", "T", [], [], ""⟩, ⟨"b", "B", "H", [], [], ""⟩] ∧
    Part003.preFilterCareerPaths ⟨[], [], [], []⟩
        [⟨"a", "A", "T", [], [], ""⟩, ⟨"b", "B", "H", [], [], ""⟩] =
      [⟨"a", "A", "T", [], [], ""⟩, ⟨"b", "B", "H", [], [], ""⟩] := by
  have h := C7_cold_profile ⟨[], [], [], []⟩
    [⟨"a", "A", "T", [], [], ""⟩, ⟨"b", "B", "H", [], [], ""⟩] rfl rfl rfl
  exact ⟨h.1.trans rfl, h.2.trans rfl⟩

/-! ### Claim C9 — attribute whitelist and array coercion -/

/-- Every value produced by `coerceArrayAttribute` is an array. -/
theorem coerceArrayAttribute_isArr (v : JSValue) :
    (coerceArrayAttribute v).isArr = true := by
  cases v with
  | arr elems => rfl
  | prim p =>
      rw [show coerceArrayAttribute (.prim p) =
        (if JSValue.truthy (.prim p) then JSValue.arr [p] else JSValue.arr []) from rfl]
      by_cases h : JSValue.truthy (.prim p) = true
      · rw [if_pos h]; rfl
      · rw [if_neg h]; rfl

/-- C9: the background write-back persists only whitelisted attribute keys,
every persisted array-typed attribute is an array, and the coercion sends a
non-array truthy value to a one-element array and a falsy value to the empty
array. -/
theorem C9_whitelist (sr : List (String × JSValue)) (k : String) (v : JSValue)
    (hmem : (k, v) ∈ Part000.filterValidAttributes sr) :
    k ∈ VALID_TALENT_ATTRIBUTES ∧
    (k ∈ ARRAY_ATTRIBUTES → v.isArr = true) ∧
    (∀ p : JSPrim, coerceArrayAttribute (.prim p) =
      (if JSValue.truthy (.prim p) then JSValue.arr [p] else JSValue.arr [])) := by
  obtain ⟨⟨k₀, v₀⟩, hin, hout⟩ := List.mem_filterMap.mp hmem
  simp only [Part000.filterValidAttributes] at hout
  by_cases hvalid : VALID_TALENT_ATTRIBUTES.contains k₀ = true
  · rw [if_pos hvalid] at hout
    have hkmem : k₀ ∈ VALID_TALENT_ATTRIBUTES := by
      simpa [List.contains] using hvalid
    by_cases harr : ARRAY_ATTRIBUTES.contains k₀ = true
    · rw [if_pos harr] at hout
      simp only [Option.some.injEq, Prod.mk.injEq] at hout
      obtain ⟨rfl, rfl⟩ := hout
      exact ⟨hkmem, fun _ => coerceArrayAttribute_isArr v₀, fun p => rfl⟩
    · rw [if_neg harr] at hout
      simp only [Option.some.injEq, Prod.mk.injEq] at hout
      obtain ⟨rfl, rfl⟩ := hout
      refine ⟨hkmem, fun hk => absurd ?_ harr, fun p => rfl⟩
      simpa [List.contains] using hk
  · rw [if_neg hvalid] at hout
    exact absurd hout (by simp)

/-- Witness for C9 at a concrete survey containing one whitelisted
array-typed key carrying a scalar and one unknown key. -/
theorem C9_whitelist_witness :
    "skills" ∈ VALID_TALENT_ATTRIBUTES ∧
    ("skills" ∈ ARRAY_ATTRIBUTES → (JSValue.arr [JSPrim.str "py"]).isArr = true) ∧
    (∀ p : JSPrim, coerceArrayAttribute (.prim p) =
      (if JSValue.truthy (.prim p) then JSValue.arr [p] else JSValue.arr [])) :=
  C9_whitelist [("skills", JSValue.prim (JSPrim.str "py")), ("hobby", JSValue.prim (JSPrim.num 3))]
    "skills" (JSValue.arr [JSPrim.str "py"]) (by decide)
/-! ### Claim C1 — oracle failures and the caller -/

/-- C1 counterexample: with a non-empty filtered catalog, an oracle timeout
in the `main.js` variant is surfaced directly to the caller as a
`success:false` envelope carrying the timeout message — the caller receives
no result. -/
theorem C1_counterexample :
    (MainJs.handle .timeout (fun _ => .unparsable) "Pathfinder"
        [⟨"p1", "P1", "T", [], [], ""⟩]).success = false ∧
    (MainJs.handle .timeout (fun _ => .unparsable) "Pathfinder"
        [⟨"p1", "P1", "T", [], [], ""⟩]).error = some "AI request timeout" ∧
    (MainJs.handle .timeout (fun _ => .unparsable) "Pathfinder"
        [⟨"p1", "P1", "T", [], [], ""⟩]).recommendations = [] ∧
    ([⟨"p1", "P1", "T", [], [], ""⟩] : List CareerPath) ≠ [] :=
  ⟨rfl, rfl, rfl, by simp⟩

/-- C1 amended: in the `main.js` variant only unparsable oracle text is
recovered locally (via the built-in default recommendations); an oracle
timeout or transport error propagates to the top-level catch and is
returned to the caller as `success:false`.  In the final `part_004`
variant, `generateOptimizedAIMatches` rethrows every oracle failure and the
handler surfaces it as `success:false`. -/
theorem C1_amended :
    (∀ (parse : String → MainJs.ParseOutcome) (stage : String)
        (careerPaths : List CareerPath),
      (MainJs.handle .timeout parse stage careerPaths).success = false) ∧
    (∀ (msg : String) (parse : String → MainJs.ParseOutcome) (stage : String)
        (careerPaths : List CareerPath),
      (MainJs.handle (.transportError msg) parse stage careerPaths).success = false) ∧
    (∀ (s stage : String) (careerPaths : List CareerPath),
      (MainJs.handle (.text s) (fun _ => .unparsable) stage careerPaths).success = true) ∧
    (∀ (msg : String) (careerPaths : List CareerPath),
      Part004C.generateOptimizedAIMatches (.apiError msg) careerPaths =
        .error ("Failed to generate AI career matches: " ++ msg)) ∧
    (∀ (msg : String) (careerPaths : List CareerPath),
      (Part004C.handler (.apiError msg) careerPaths).success = false) ∧
    (∀ careerPaths : List CareerPath,
      (Part004C.handler .noJson careerPaths).success = false) :=
  ⟨fun _ _ _ => rfl, fun _ _ _ _ => rfl, fun _ _ _ => rfl,
   fun _ _ => rfl, fun _ _ => rfl, fun _ => rfl⟩

/-! ### Claim C10 — the built-in parse-failure default -/

/-- C10: when the oracle text cannot be parsed as JSON after cleaning, the
`main.js` variant still reports `success:true` and its recommendations are
exactly the first three catalog items, in catalog order, with match scores
85, 80 and 75. -/
theorem C10_parse_failure_default (stage s : String) (careerPaths : List CareerPath)
    (h : 3 ≤ careerPaths.length) :
    (MainJs.handle (.text s) (fun _ => .unparsable) stage careerPaths).success = true ∧
    (MainJs.handle (.text s) (fun _ => .unparsable) stage careerPaths).recommendations.map
        (fun r => r.pathId) = (careerPaths.take 3).map (fun p => p.id) ∧
    (MainJs.handle (.text s) (fun _ => .unparsable) stage careerPaths).recommendations.map
        (fun r => r.matchScore) = [85, 80, 75] := by
  rcases careerPaths with _ | ⟨a, _ | ⟨b, _ | ⟨c, rest⟩⟩⟩
  · simp at h
  · simp at h
  · simp at h
  · refine ⟨rfl, ?_, ?_⟩
    · simp [MainJs.handle, MainJs.fallbackRecommendations,
        MainJs.fallbackRecommendationsFrom]
    · simp [MainJs.handle, MainJs.fallbackRecommendations,
        MainJs.fallbackRecommendationsFrom]

/-- Witness for C10 at a concrete three-item catalog. -/
theorem C10_parse_failure_default_witness :
    3 ≤ ([⟨"a", "A", "T", [], [], ""⟩, ⟨"b", "B", "H", [], [], ""⟩,
      ⟨"c", "C", "F", [], [], ""⟩] : List CareerPath).length ∧
    ((MainJs.handle (.text "oops") (fun _ => .unparsable) "Pathfinder"
        [⟨"a", "A", "T", [], [], ""⟩, ⟨"b", "B", "H", [], [], ""⟩,
         ⟨"c", "C", "F", [], [], ""⟩]).success = true ∧
     (MainJs.handle (.text "oops") (fun _ => .unparsable) "Pathfinder"
        [⟨"a", "A", "T", [], [], ""⟩, ⟨"b", "B", "H", [], [], ""⟩,
         ⟨"c", "C", "F", [], [], ""⟩]).recommendations.map (fun r => r.pathId) =
        (([⟨"a", "A", "T", [], [], ""⟩, ⟨"b", "B", "H", [], [], ""⟩,
           ⟨"c", "C", "F", [], [], ""⟩] : List CareerPath).take 3).map (fun p => p.id) ∧
     (MainJs.handle (.text "oops") (fun _ => .unparsable) "Pathfinder"
        [⟨"a", "A", "T", [], [], ""⟩, ⟨"b", "B", "H", [], [], ""⟩,
         ⟨"c", "C", "F", [], [], ""⟩]).recommendations.map (fun r => r.matchScore) =
        [85, 80, 75]) :=
  ⟨by decide,
   C10_parse_failure_default "Pathfinder" "oops"
     [⟨"a", "A", "T", [], [], ""⟩, ⟨"b", "B", "H", [], [], ""⟩,
      ⟨"c", "C", "F", [], [], ""⟩] (by decide)⟩

/-! ### Claim C8 — the status write-back -/

/-- C8 counterexample: in the `part_006` variant the `testTaken` update is
awaited before the response is built, and a rejected update is surfaced to
the caller as a `success:false` envelope carrying the write error. -/
theorem C8_counterexample :
    (Part006.handlerTail
        ⟨[⟨"a", "A", 90, "r", []⟩, ⟨"b", "B", 80, "r", []⟩, ⟨"c", "C", 75, "r", []⟩], none⟩
        "Pathfinder" (.error "Network error")).success = false ∧
    (Part006.handlerTail
        ⟨[⟨"a", "A", 90, "r", []⟩, ⟨"b", "B", 80, "r", []⟩, ⟨"c", "C", 75, "r", []⟩], none⟩
        "Pathfinder" (.error "Network error")).error = some "Network error" :=
  ⟨rfl, rfl⟩

/-- C8 amended: in the `executeCareerMatching` variants the write-back is
fire-and-forget — the response is the same whatever the write outcome, the
request still succeeds, and a failed write is observable only as a log
line.  In the `part_006` variant, by contrast, a failed awaited write always
produces a `success:false` response. -/
theorem C8_amended :
    (∀ (u₁ u₂ : Except String Unit) (ms : List MatchCand) (tp : ℕ),
      (Part000.executeCareerMatching u₁ ms tp).1 =
        (Part000.executeCareerMatching u₂ ms tp).1) ∧
    (∀ (u : Except String Unit) (ms : List MatchCand) (tp : ℕ),
      (Part000.executeCareerMatching u ms tp).1.success = true) ∧
    (∀ (msg : String) (ms : List MatchCand) (tp : ℕ),
      (Part000.executeCareerMatching (.error msg) ms tp).2 =
        ["Warning: Failed to update talent: " ++ msg]) ∧
    (∀ (payload : MainJs.JsonPayload) (stage msg : String),
      (Part006.handlerTail payload stage (.error msg)).success = false) := by
  refine ⟨fun u₁ u₂ ms tp => rfl, fun u ms tp => rfl, fun msg ms tp => rfl,
    fun payload stage msg => ?_⟩
  unfold Part006.handlerTail
  split
  · rfl
  · rfl

/-! ### Claim C3 — referential integrity of returned recommendations -/

/-- C3 counterexample: the `part_000` `module.exports` handler returns the
oracle recommendations verbatim — with a one-item catalog `p1`, a
hallucinated recommendation id `gh` appears in the output even though no
catalog item carries it. -/
theorem C3_counterexample :
    (Part000.respond ⟨[⟨"gh", "G", 91, "r", []⟩], none⟩ "Pathfinder").recommendations.map
        (fun r => r.pathId) = ["gh"] ∧
    (([⟨"p1", "P1", "T", [], [], ""⟩] : List CareerPath).map (fun p => p.id)).contains
        "gh" = false ∧
    (Part000.respond ⟨[⟨"gh", "G", 91, "r", []⟩], none⟩ "Pathfinder").success = true := by
  refine ⟨rfl, by decide, rfl⟩

/-- C3 amended: the `part_003` handler does guarantee referential
integrity — every recommendation it returns carries a `pathId` present in
the filtered catalog (hallucinated ids are dropped by
`validRecommendations`); the `part_000` handler returns the oracle output
unvalidated. -/
theorem C3_amended (recs : List MainJs.Recommendation)
    (relevantPaths : List CareerPath) (advice : Option String) (stage : String)
    (r : MainJs.Recommendation)
    (hmem : r ∈ (Part003.respond recs relevantPaths advice stage).recommendations) :
    ∃ p ∈ relevantPaths, p.id = r.pathId := by
  unfold Part003.respond at hmem
  by_cases hz : (Part003.validRecommendations recs relevantPaths).length = 0
  · rw [if_pos hz] at hmem
    simp at hmem
  · rw [if_neg hz] at hmem
    simp only at hmem
    have hv : r ∈ Part003.validRecommendations recs relevantPaths :=
      List.mem_of_mem_take hmem
    unfold Part003.validRecommendations at hv
    obtain ⟨-, hany⟩ := List.mem_filter.mp hv
    obtain ⟨p, hp, hbeq⟩ := List.any_eq_true.mp hany
    exact ⟨p, hp, by simpa using hbeq⟩

/-- Witness for C3 amended at a concrete request with one valid and one
hallucinated recommendation. -/
theorem C3_amended_witness :
    ⟨"p1", "P1", 90, "r", []⟩ ∈
      (Part003.respond [⟨"p1", "P1", 90, "r", []⟩, ⟨"gh", "G", 80, "r", []⟩]
        [⟨"p1", "P1", "T", [], [], ""⟩] none "Pathfinder").recommendations ∧
    ∃ p ∈ ([⟨"p1", "P1", "T", [], [], ""⟩] : List CareerPath),
      p.id = (⟨"p1", "P1", 90, "r", []⟩ : MainJs.Recommendation).pathId :=
  ⟨by decide,
   C3_amended [⟨"p1", "P1", 90, "r", []⟩, ⟨"gh", "G", 80, "r", []⟩]
     [⟨"p1", "P1", "T", [], [], ""⟩] none "Pathfinder"
     ⟨"p1", "P1", 90, "r", []⟩ (by decide)⟩

/-! ### Claim C2 — score clamping under reconciliation -/

/-- C2 counterexample: the `part_002` reconciliation passes an out-of-range
oracle score of 150 through to the caller unclamped. -/
theorem C2_counterexample :
    (Part002.generateAICareerMatches [⟨"p1", 150, "r", [], [], []⟩]
        [⟨"p1", "P1", "T", [], [], ""⟩]).map (fun m => m.matchScore) = [150] ∧
    ¬ (150 : ℤ) ≤ 100 :=
  ⟨rfl, by decide⟩

/-- The clamp of the first `part_004` variant always lands in [0, 100]. -/
theorem clampScore_mem (s : Option ℤ) :
    0 ≤ Part004A.clampScore s ∧ Part004A.clampScore s ≤ 100 :=
  ⟨le_min (le_max_right _ 0) (by norm_num), min_le_right _ _⟩

/-- C2 amended: the first `part_004` variant does clamp — every candidate
surviving its reconciliation has a score in [0, 100], with missing or falsy
scores defaulting to 50 — but the `part_002` variant returns the oracle
score unclamped. -/
theorem C2_amended (stage : String) (ms : List Part004A.OracleMatch)
    (careerPaths : List CareerPath) (m : MatchCand)
    (hmem : m ∈ Part004A.enrichedMatches stage ms careerPaths) :
    (0 ≤ m.matchScore ∧ m.matchScore ≤ 100) ∧
    Part004A.scoreOrFifty none = 50 ∧ Part004A.scoreOrFifty (some 0) = 50 := by
  refine ⟨?_, rfl, rfl⟩
  unfold Part004A.enrichedMatches sortByScoreDesc at hmem
  rw [(List.perm_insertionSort _ _).mem_iff] at hmem
  obtain ⟨om, -, hsome⟩ := List.mem_filterMap.mp hmem
  unfold Part004A.enrichMatch at hsome
  obtain ⟨cp, -, hm⟩ := Option.map_eq_some'.mp hsome
  have hscore : m.matchScore = Part004A.clampScore om.matchScore := by
    rw [← hm]
  rw [hscore]
  exact clampScore_mem om.matchScore

/-- Witness for C2 amended at a concrete out-of-range oracle score, clamped
to 100 by the `part_004` reconciliation. -/
theorem C2_amended_witness :
    (⟨⟨"p1", "P1", "T", [], [], ""⟩, 100, "r", ["s"], ["d"], ["a"]⟩ : MatchCand) ∈
      Part004A.enrichedMatches "Pathfinder"
        [⟨"p1", some 150, some "r", some ["s"], some ["d"], some ["a"]⟩]
        [⟨"p1", "P1", "T", [], [], ""⟩] ∧
    ((0 ≤ (⟨⟨"p1", "P1", "T", [], [], ""⟩, 100, "r", ["s"], ["d"], ["a"]⟩ : MatchCand).matchScore ∧
      (⟨⟨"p1", "P1", "T", [], [], ""⟩, 100, "r", ["s"], ["d"], ["a"]⟩ : MatchCand).matchScore ≤ 100) ∧
     Part004A.scoreOrFifty none = 50 ∧ Part004A.scoreOrFifty (some 0) = 50) :=
  ⟨by decide,
   C2_amended "Pathfinder"
     [⟨"p1", some 150, some "r", some ["s"], some ["d"], some ["a"]⟩]
     [⟨"p1", "P1", "T", [], [], ""⟩]
     ⟨⟨"p1", "P1", "T", [], [], ""⟩, 100, "r", ["s"], ["d"], ["a"]⟩ (by decide)⟩

/-! ### Claim C4 — bounded result size and fallback fill -/

/-- C4 counterexample: the `part_002` generator has no size bound — six
valid oracle matches on a six-item catalog yield six returned candidates,
exceeding the variant target of five. -/
theorem C4_counterexample :
    (Part002.generateAICareerMatches
        [⟨"a", 96, "r", [], [], []⟩, ⟨"b", 95, "r", [], [], []⟩,
         ⟨"c", 94, "r", [], [], []⟩, ⟨"d", 93, "r", [], [], []⟩,
         ⟨"e", 92, "r", [], [], []⟩, ⟨"f", 91, "r", [], [], []⟩]
        [⟨"a", "A", "T", [], [], ""⟩, ⟨"b", "B", "T", [], [], ""⟩,
         ⟨"c", "C", "T", [], [], ""⟩, ⟨"d", "D", "T", [], [], ""⟩,
         ⟨"e", "E", "T", [], [], ""⟩, ⟨"f", "F", "T", [], [], ""⟩]).length = 6 ∧
    ¬ (6 : ℕ) ≤ 5 :=
  ⟨by decide, by decide⟩

/-! ### Claim C5 — the fallback score formula -/

/-- Concrete evaluation of the enhanced fallback scorer on a one-item
catalog whose only signal is an interested-fields industry hit. -/
theorem enhancedFallback_industry_eval :
    Part004A.generateEnhancedFallbackMatches ⟨[], [], [], ["T"]⟩ "Pathfinder"
        [⟨"p1", "P1", "T", [], [], ""⟩] zeroJitter =
      [⟨⟨"p1", "P1", "T", [], [], ""⟩, 30, "strong interest in T",
        ["Growth mindset"], ["Industry knowledge", "Specialized skills"],
        ["Research the field", "Take relevant courses", "Network with professionals",
         "Build relevant projects"]⟩] := by
  norm_num [Part004A.generateEnhancedFallbackMatches, Part004A.enhancedScoredPaths,
    Part004A.enhancedScoreOne, Part004A.stageLevelFit, sortByScoreDesc, zeroJitter,
    List.insertionSort, List.orderedInsert]
  decide

/-- C5 counterexample: on an item whose only signal is an interested-fields
industry hit, the enhanced fallback scorer of the first `part_004` variant
(jitter stream zero) produces the score 30, while the formula stated by the
spec gives 25. -/
theorem C5_counterexample :
    (Part004A.generateEnhancedFallbackMatches ⟨[], [], [], ["T"]⟩ "Pathfinder"
        [⟨"p1", "P1", "T", [], [], ""⟩] zeroJitter).map (fun m => m.matchScore) = [30] ∧
    specFallbackScore ⟨[], [], [], ["T"]⟩ "Pathfinder" ⟨"p1", "P1", "T", [], [], ""⟩ = 25 ∧
    (30 : ℤ) ≠ 25 :=
  ⟨by rw [enhancedFallback_industry_eval]; rfl, by decide, by decide⟩

/-- Every member of the scored list comes from scoring one catalog item with
some stream value. -/
theorem mem_enhancedScoredPaths {sr : SurveyResponses} {cs : String}
    {jitter : ℕ → ℚ} {i : ℕ} {c : List CareerPath} {m : MatchCand}
    (h : m ∈ Part004A.enhancedScoredPaths sr cs jitter i c) :
    ∃ p ∈ c, ∃ k, m = Part004A.enhancedScoreOne sr cs p (jitter k) := by
  induction c generalizing i with
  | nil => simp [Part004A.enhancedScoredPaths] at h
  | cons p ps ih =>
      rw [Part004A.enhancedScoredPaths] at h
      rcases List.mem_cons.mp h with h1 | h2
      · exact ⟨p, List.mem_cons_self p ps, i, h1⟩
      · obtain ⟨q, hq, k, hk⟩ := ih h2
        exact ⟨q, List.mem_cons_of_mem p hq, k, hk⟩

/-- C5 amended: with the jitter stream at zero, every match returned by the
enhanced fallback scorer carries the score
`min(25·skill + 15·toLearn + 20·interest + 30·industryHit + 10·stageFit, 90)`
of its own catalog item, with bidirectional case-insensitive containment
counts. -/
theorem C5_amended (sr : SurveyResponses) (careerStage : String)
    (careerPaths : List CareerPath) (m : MatchCand)
    (hmem : m ∈ Part004A.generateEnhancedFallbackMatches sr careerStage
      careerPaths zeroJitter) :
    m.matchScore =
      min ((Part004A.skillMatchCount sr m.careerPath * 25 +
        Part004A.learningMatchCount sr m.careerPath * 15 +
        Part004A.interestMatchCount sr m.careerPath * 20 +
        (if sr.interestedFields.contains m.careerPath.industry then 30 else 0) +
        (if Part004A.stageLevelFit careerStage m.careerPath then 10 else 0) : ℕ) : ℤ)
        90 := by
  unfold Part004A.generateEnhancedFallbackMatches sortByScoreDesc at hmem
  have h1 := List.mem_of_mem_take hmem
  rw [(List.perm_insertionSort _ _).mem_iff] at h1
  obtain ⟨p, -, k, hk⟩ := mem_enhancedScoredPaths h1
  subst hk
  simp only [Part004A.enhancedScoreOne, zeroJitter, add_zero, round_natCast,
    Part004A.skillMatchCount, Part004A.learningMatchCount,
    Part004A.interestMatchCount, List.countP_eq_length_filter]

/-- Witness for C5 amended at a concrete one-item catalog whose only signal
is the industry hit. -/
theorem C5_amended_witness :
    (⟨⟨"p1", "P1", "T", [], [], ""⟩, 30, "strong interest in T",
      ["Growth mindset"], ["Industry knowledge", "Specialized skills"],
      ["Research the field", "Take relevant courses", "Network with professionals",
       "Build relevant projects"]⟩ : MatchCand) ∈
      Part004A.generateEnhancedFallbackMatches ⟨[], [], [], ["T"]⟩ "Pathfinder"
        [⟨"p1", "P1", "T", [], [], ""⟩] zeroJitter ∧
    (⟨⟨"p1", "P1", "T", [], [], ""⟩, 30, "strong interest in T",
      ["Growth mindset"], ["Industry knowledge", "Specialized skills"],
      ["Research the field", "Take relevant courses", "Network with professionals",
       "Build relevant projects"]⟩ : MatchCand).matchScore =
      min ((Part004A.skillMatchCount ⟨[], [], [], ["T"]⟩
          (⟨⟨"p1", "P1", "T", [], [], ""⟩, 30, "strong interest in T",
            ["Growth mindset"], ["Industry knowledge", "Specialized skills"],
            ["Research the field", "Take relevant courses", "Network with professionals",
             "Build relevant projects"]⟩ : MatchCand).careerPath * 25 +
        Part004A.learningMatchCount ⟨[], [], [], ["T"]⟩
          (⟨⟨"p1", "P1", "T", [], [], ""⟩, 30, "strong interest in T",
            ["Growth mindset"], ["Industry knowledge", "Specialized skills"],
            ["Research the field", "Take relevant courses", "Network with professionals",
             "Build relevant projects"]⟩ : MatchCand).careerPath * 15 +
        Part004A.interestMatchCount ⟨[], [], [], ["T"]⟩
          (⟨⟨"p1", "P1", "T", [], [], ""⟩, 30, "strong interest in T",
            ["Growth mindset"], ["Industry knowledge", "Specialized skills"],
            ["Research the field", "Take relevant courses", "Network with professionals",
             "Build relevant projects"]⟩ : MatchCand).careerPath * 20 +
        (if (["T"] : List String).contains
          (⟨⟨"p1", "P1", "T", [], [], ""⟩, 30, "strong interest in T",
            ["Growth mindset"], ["Industry knowledge", "Specialized skills"],
            ["Research the field", "Take relevant courses", "Network with professionals",
             "Build relevant projects"]⟩ : MatchCand).careerPath.industry then 30 else 0) +
        (if Part004A.stageLevelFit "Pathfinder"
          (⟨⟨"p1", "P1", "T", [], [], ""⟩, 30, "strong interest in T",
            ["Growth mindset"], ["Industry knowledge", "Specialized skills"],
            ["Research the field", "Take relevant courses", "Network with professionals",
             "Build relevant projects"]⟩ : MatchCand).careerPath then 10 else 0) : ℕ) : ℤ)
        90 := by
  constructor
  · rw [enhancedFallback_industry_eval]
    exact List.mem_singleton_self _
  · exact C5_amended ⟨[], [], [], ["T"]⟩ "Pathfinder" [⟨"p1", "P1", "T", [], [], ""⟩]
      _ (by rw [enhancedFallback_industry_eval]; exact List.mem_singleton_self _)

/-! ### Claim C6 — fallback determinism and the jitter -/

/-- C6 counterexample: two runs of `generateFastFallbackMatches` on the same
profile and catalog but different `Math.random()` sequences return
differently ordered output — the jitter is applied unconditionally and is
not a no-op. -/
theorem C6_counterexample :
    Part003.generateFastFallbackMatches ⟨[], [], [], ["T"]⟩
        [⟨"a", "A", "T", [], [], ""⟩, ⟨"b", "B", "T", [], [], ""⟩]
        (fun i => if i = 0 then 9 else 0) ≠
      Part003.generateFastFallbackMatches ⟨[], [], [], ["T"]⟩
        [⟨"a", "A", "T", [], [], ""⟩, ⟨"b", "B", "T", [], [], ""⟩]
        (fun i => if i = 0 then 0 else 9) := by
  have hleft : Part003.generateFastFallbackMatches ⟨[], [], [], ["T"]⟩
      [⟨"a", "A", "T", [], [], ""⟩, ⟨"b", "B", "T", [], [], ""⟩]
      (fun i => if i = 0 then 9 else 0) =
      [⟨⟨"a", "A", "T", [], [], ""⟩, 39, "0 skill matches and 0 interest alignments",
        [], ["Industry knowledge", "Specialized skills"],
        ["Take courses", "Build projects", "Network"]⟩,
       ⟨⟨"b", "B", "T", [], [], ""⟩, 30, "0 skill matches and 0 interest alignments",
        [], ["Industry knowledge", "Specialized skills"],
        ["Take courses", "Build projects", "Network"]⟩] := by
    norm_num [Part003.generateFastFallbackMatches, Part003.fastScoredPaths,
      Part003.fastScoreOne, sortByScoreDesc, List.insertionSort, List.orderedInsert]
    decide
  have hright : Part003.generateFastFallbackMatches ⟨[], [], [], ["T"]⟩
      [⟨"a", "A", "T", [], [], ""⟩, ⟨"b", "B", "T", [], [], ""⟩]
      (fun i => if i = 0 then 0 else 9) =
      [⟨⟨"b", "B", "T", [], [], ""⟩, 39, "0 skill matches and 0 interest alignments",
        [], ["Industry knowledge", "Specialized skills"],
        ["Take courses", "Build projects", "Network"]⟩,
       ⟨⟨"a", "A", "T", [], [], ""⟩, 30, "0 skill matches and 0 interest alignments",
        [], ["Industry knowledge", "Specialized skills"],
        ["Take courses", "Build projects", "Network"]⟩] := by
    norm_num [Part003.generateFastFallbackMatches, Part003.fastScoredPaths,
      Part003.fastScoreOne, sortByScoreDesc, List.insertionSort, List.orderedInsert]
    decide
  rw [hleft, hright]
  simp

/-- C6 amended: the ranking is a deterministic function of profile, catalog
and the random stream; with the stream held at zero it coincides with the
jitter-free scorer, hence is a pure function of profile and catalog. -/
theorem C6_amended (sr : SurveyResponses) (careerPaths : List CareerPath) :
    Part003.generateFastFallbackMatches sr careerPaths zeroJitter =
      Part003.generateFastFallbackMatchesNoJitter sr careerPaths := by
  unfold Part003.generateFastFallbackMatches Part003.generateFastFallbackMatchesNoJitter
  have hmap : ∀ (i : ℕ) (c : List CareerPath),
      Part003.fastScoredPaths sr zeroJitter i c =
        c.map (Part003.fastScoreOneNoJitter sr) := by
    intro i c
    induction c generalizing i with
    | nil => rfl
    | cons p ps ih =>
        rw [Part003.fastScoredPaths, List.map_cons, ih]
        have hone : Part003.fastScoreOne sr p (zeroJitter i) =
            Part003.fastScoreOneNoJitter sr p := by
          simp only [Part003.fastScoreOne, Part003.fastScoreOneNoJitter, zeroJitter,
            add_zero, round_natCast]
        rw [hone]
  rw [hmap]

/-- Membership in a `contains` check, specialised to strings. -/
theorem mem_of_containsStr {l : List String} {a : String}
    (h : l.contains a = true) : a ∈ l := by
  simpa [List.contains] using h

/-- Splitting a list by a boolean predicate preserves the total length. -/
theorem filter_split_length {α : Type} (p : α → Bool) (l : List α) :
    (l.filter p).length + (l.filter fun a => !(p a)).length = l.length := by
  induction l with
  | nil => rfl
  | cons a l ih =>
      rw [List.filter_cons, List.filter_cons]
      by_cases h : p a = true
      · rw [if_pos h, if_neg (by rw [h]; simp)]
        simp only [List.length_cons]
        omega
      · have h' : p a = false := by revert h; cases p a <;> simp
        rw [if_neg h, if_pos (by rw [h']; rfl)]
        simp only [List.length_cons]
        omega

/-- The scored fallback list carries exactly the catalog items, in order. -/
theorem enhancedScoredPaths_map_careerPath (sr : SurveyResponses) (cs : String)
    (jitter : ℕ → ℚ) (i : ℕ) (c : List CareerPath) :
    (Part004A.enhancedScoredPaths sr cs jitter i c).map (fun m => m.careerPath) = c := by
  induction c generalizing i with
  | nil => rfl
  | cons p ps ih =>
      rw [Part004A.enhancedScoredPaths, List.map_cons, ih]
      rfl

/-- The scored fallback list has the catalog length. -/
theorem length_enhancedScoredPaths (sr : SurveyResponses) (cs : String)
    (jitter : ℕ → ℚ) (i : ℕ) (c : List CareerPath) :
    (Part004A.enhancedScoredPaths sr cs jitter i c).length = c.length := by
  have h := congrArg List.length (enhancedScoredPaths_map_careerPath sr cs jitter i c)
  simpa using h

/-- The enhanced fallback returns `min 6 |catalog|` matches. -/
theorem length_generateEnhancedFallbackMatches (sr : SurveyResponses) (cs : String)
    (c : List CareerPath) (jitter : ℕ → ℚ) :
    (Part004A.generateEnhancedFallbackMatches sr cs c jitter).length =
      min 6 c.length := by
  unfold Part004A.generateEnhancedFallbackMatches sortByScoreDesc
  rw [List.length_take, (List.perm_insertionSort _ _).length_eq,
    length_enhancedScoredPaths]

/-- Distinct catalog ids give distinct ids in the enhanced fallback output. -/
theorem nodup_fallback_ids (sr : SurveyResponses) (cs : String) (jitter : ℕ → ℚ)
    {c : List CareerPath} (h : (c.map (fun p => p.id)).Nodup) :
    ((Part004A.generateEnhancedFallbackMatches sr cs c jitter).map
      (fun m => m.careerPath.id)).Nodup := by
  unfold Part004A.generateEnhancedFallbackMatches sortByScoreDesc
  have hids : (Part004A.enhancedScoredPaths sr cs jitter 0 c).map
      (fun m => m.careerPath.id) = c.map (fun p => p.id) := by
    have h3 := enhancedScoredPaths_map_careerPath sr cs jitter 0 c
    calc (Part004A.enhancedScoredPaths sr cs jitter 0 c).map (fun m => m.careerPath.id)
        = ((Part004A.enhancedScoredPaths sr cs jitter 0 c).map
            (fun m => m.careerPath)).map (fun p => p.id) := by rw [List.map_map]; rfl
      _ = c.map (fun p => p.id) := by rw [h3]
  have hperm := (List.perm_insertionSort (fun a b => b.matchScore ≤ a.matchScore)
    (Part004A.enhancedScoredPaths sr cs jitter 0 c)).map (fun m => m.careerPath.id)
  rw [hids] at hperm
  have hsorted : ((List.insertionSort (fun a b => b.matchScore ≤ a.matchScore)
      (Part004A.enhancedScoredPaths sr cs jitter 0 c)).map
        (fun m => m.careerPath.id)).Nodup := hperm.nodup_iff.mpr h
  exact List.Nodup.sublist ((List.take_sublist 6 _).map _) hsorted

/-- C4 amended: the first `part_004` variant keeps the bound — its
`generateOptimizedAIMatches` returns at most 6 candidates, and whenever the
catalog ids are distinct it returns at least `min(4, |catalog|)` candidates,
supplementing an oracle deficit below 4 with non-duplicate (by catalog id)
fallback candidates; the `part_002` variant has neither the bound nor the
fill. -/
theorem C4_amended (stage : String) (sr : SurveyResponses)
    (ms : List Part004A.OracleMatch) (careerPaths : List CareerPath)
    (jitter : ℕ → ℚ) (hnodup : (careerPaths.map (fun p => p.id)).Nodup) :
    (Part004A.generateOptimizedAIMatches stage sr ms careerPaths jitter).length ≤ 6 ∧
    min 4 careerPaths.length ≤
      (Part004A.generateOptimizedAIMatches stage sr ms careerPaths jitter).length := by
  have hout : Part004A.generateOptimizedAIMatches stage sr ms careerPaths jitter =
      (if (Part004A.enrichedMatches stage ms careerPaths).length < 4 then
        Part004A.enrichedMatches stage ms careerPaths ++
          ((Part004A.generateEnhancedFallbackMatches sr stage careerPaths jitter).filter
            fun m => !(((Part004A.enrichedMatches stage ms careerPaths).map
              (fun x => x.careerPath.id)).contains m.careerPath.id)).take
            (4 - (Part004A.enrichedMatches stage ms careerPaths).length)
      else Part004A.enrichedMatches stage ms careerPaths).take 6 := rfl
  rw [hout]
  set enriched := Part004A.enrichedMatches stage ms careerPaths with henr
  set fallback := Part004A.generateEnhancedFallbackMatches sr stage careerPaths jitter
    with hfb
  set existingIds := enriched.map (fun x => x.careerPath.id) with hids
  have hfb_len : fallback.length = min 6 careerPaths.length :=
    length_generateEnhancedFallbackMatches sr stage careerPaths jitter
  have hfb_ids : (fallback.map (fun m => m.careerPath.id)).Nodup :=
    nodup_fallback_ids sr stage jitter hnodup
  by_cases hlt : enriched.length < 4
  · rw [if_pos hlt]
    have hsplit := filter_split_length
      (fun m => existingIds.contains m.careerPath.id) fallback
    have hrem_le : (fallback.filter
        (fun m => existingIds.contains m.careerPath.id)).length ≤ enriched.length := by
      have hsub : List.Subperm
          ((fallback.filter (fun m => existingIds.contains m.careerPath.id)).map
            (fun m => m.careerPath.id)) existingIds := by
        apply List.Nodup.subperm
        · exact List.Nodup.sublist ((List.filter_sublist _).map _) hfb_ids
        · intro x hx
          obtain ⟨m, hm, rfl⟩ := List.mem_map.mp hx
          exact mem_of_containsStr ((List.mem_filter.mp hm).2)
      have hlen := hsub.length_le
      rwa [List.length_map, hids, List.length_map] at hlen
    rw [List.length_take, List.length_append, List.length_take]
    omega
  · rw [if_neg hlt, List.length_take]
    omega

/-- Witness for C4 amended at a one-item catalog and an empty oracle match
list (the fallback fill produces the single possible candidate). -/
theorem C4_amended_witness :
    (([⟨"p1", "P1", "T", [], [], ""⟩] : List CareerPath).map (fun p => p.id)).Nodup ∧
    ((Part004A.generateOptimizedAIMatches "Pathfinder" ⟨[], [], [], ["T"]⟩ []
        [⟨"p1", "P1", "T", [], [], ""⟩] zeroJitter).length ≤ 6 ∧
     min 4 ([⟨"p1", "P1", "T", [], [], ""⟩] : List CareerPath).length ≤
       (Part004A.generateOptimizedAIMatches "Pathfinder" ⟨[], [], [], ["T"]⟩ []
         [⟨"p1", "P1", "T", [], [], ""⟩] zeroJitter).length) :=
  ⟨by decide,
   C4_amended "Pathfinder" ⟨[], [], [], ["T"]⟩ [] [⟨"p1", "P1", "T", [], [], ""⟩]
     zeroJitter (by decide)⟩

end CareerMatch
